import Mathlib

/-!
Shallow embedding of the Elasticsearch snapshots collector
(`inputs/elasticsearch/collector/snapshots.go`).

Modelling conventions:
* Go `int`/`int64` fields are modelled as `Int`; Go integer division
  (truncation toward zero) is `Int.tdiv`.
* Every metric value in the source is an integer expression converted to
  `float64` at the very end (`float64(x)` where `x` is an integer); the
  embedding keeps the integer, which the float conversion represents
  exactly in the ranges at issue.
* The HTTP world is a function from the request URL string to a reply;
  a `url.URL` is modelled as the constant scheme://host part plus a path,
  with `path.Join`/`path.Clean` from the Go standard library embedded at
  segment level.
* Effects (requested URLs, log lines, emitted samples) are returned
  explicitly as lists, in program order.
-/

/-- Shard summary of one snapshot (`.Shards.Total/.Failed/.Successful` in
the source). Modelled from the spec: the response struct declarations are
not part of the provided sources; fields follow the spec data model
("shard-count summary {total, failed, successful}") and the field accesses
visible in `snapshots.go`. -/
structure SnapshotShards where
  Total : Int
  Failed : Int
  Successful : Int
deriving DecidableEq, Repr

/-- One snapshot record. Modelled from the spec: the struct declaration is
not in the provided sources; fields follow the spec data model
(index-name list, start/end milliseconds, failure list, shards, state,
version) and the accesses in `snapshots.go`. -/
structure SnapshotStatDataResponse where
  Indices : List String
  StartTimeInMillis : Int
  EndTimeInMillis : Int
  Failures : List String
  Shards : SnapshotShards
  State : String
  Version : String
deriving DecidableEq, Repr

/-- Per-repository snapshot stats. Modelled from the spec: an ordered
sequence of snapshot records, oldest first. -/
structure SnapshotStatsResponse where
  Snapshots : List SnapshotStatDataResponse
deriving DecidableEq, Repr

/-- Split a character list at a separator character; the result always has
one more segment than there are separators (so `[[]]` on empty input). -/
def splitCharsOn (sep : Char) : List Char → List (List Char)
  | [] => [[]]
  | c :: rest =>
    match splitCharsOn sep rest with
    | [] => if c = sep then [[], []] else [[c]]
    | seg :: segs => if c = sep then [] :: seg :: segs else (c :: seg) :: segs

/-- Split a string on "/" (`strings.Split` / `String.splitOn` behaviour,
written with structural recursion so it evaluates in the kernel). -/
def splitSlash (s : String) : List String :=
  (splitCharsOn '/' s.data).map String.mk

/-- Join strings with a separator (`strings.Join`). -/
def joinWith (sep : String) : List String → String
  | [] => ""
  | [s] => s
  | s :: rest => s ++ sep ++ joinWith sep rest

/-- Whether a path is rooted (begins with '/'). -/
def startsWithSlash (s : String) : Bool :=
  match s.data with
  | [] => false
  | c :: _ => c = '/'

/-- Go `path.Clean` segment loop: drop empty and "." segments, resolve
".." against the stack (".." at the root of a rooted path is dropped,
and accumulates at the front of a relative path). `acc` holds the output
segments in reverse. -/
def cleanLoop (rooted : Bool) (segs : List String) (acc : List String) : List String :=
  match segs with
  | [] => acc.reverse
  | seg :: rest =>
    if seg = "" ∨ seg = "." then cleanLoop rooted rest acc
    else if seg = ".." then
      match acc with
      | [] => if rooted then cleanLoop rooted rest [] else cleanLoop rooted rest [".."]
      | top :: accRest =>
        if top = ".." then cleanLoop rooted rest (".." :: top :: accRest)
        else cleanLoop rooted rest accRest
    else cleanLoop rooted rest (seg :: acc)

/-- Go `path.Clean`, at the granularity of "/"-separated segments. -/
def pathClean (p : String) : String :=
  if p = "" then "."
  else
    let rooted := startsWithSlash p
    let joined := joinWith "/" (cleanLoop rooted (splitSlash p) [])
    if rooted then (if joined = "" then "/" else "/" ++ joined)
    else (if joined = "" then "." else joined)

/-- Go `path.Join`: drop empty elements, join the rest with "/", clean the
result; all-empty input yields the empty string. -/
def pathJoin (elems : List String) : String :=
  let nonEmpty := elems.filter (fun e => e ≠ "")
  if nonEmpty = [] then "" else pathClean (joinWith "/" nonEmpty)

/-- A `url.URL` as the collector uses it: the scheme://host:port part is
never modified, only `Path` is; `toString` reassembles the request URL. -/
structure URL where
  host : String
  path : String
deriving DecidableEq, Repr

def URL.toString (u : URL) : String := u.host ++ u.path

/-- Prometheus descriptor metadata (`prometheus.Desc`): fully-qualified
name, help text, variable label names. -/
structure PromDesc where
  fqName : String
  help : String
  variableLabels : List String
deriving DecidableEq, Repr

/-- `prometheus.ValueType`; every metric in this collector is a gauge. -/
inductive ValueType where
  | gauge
  | counter
deriving DecidableEq, Repr

/-- `prometheus.BuildFQName`: join the non-empty parts with "_";
empty metric name yields the empty string. -/
def buildFQName (ns subsystem name : String) : String :=
  if name = "" then ""
  else if ns ≠ "" ∧ subsystem ≠ "" then joinWith "_" [ns, subsystem, name]
  else if ns ≠ "" then joinWith "_" [ns, name]
  else if subsystem ≠ "" then joinWith "_" [subsystem, name]
  else name

/-- The collector package's `namespace` constant. It is declared in a file
of the package outside the provided sources; its exact value does not
affect any claim (it is a fixed prefix of every descriptor name). -/
def namespaceStr : String := "elasticsearch"

/-- `snapshotMetric`: descriptor plus pure value/label extraction from one
snapshot record. -/
structure snapshotMetric where
  vtype : ValueType
  desc : PromDesc
  value : SnapshotStatDataResponse → Int
  labels : String → SnapshotStatDataResponse → List String

/-- `repositoryMetric`: descriptor plus pure value/label extraction from a
whole per-repository stats response. -/
structure repositoryMetric where
  vtype : ValueType
  desc : PromDesc
  value : SnapshotStatsResponse → Int
  labels : String → List String

def defaultSnapshotLabels : List String := ["repository", "state", "version"]

def defaultSnapshotLabelValues (repositoryName : String)
    (snapshotStats : SnapshotStatDataResponse) : List String :=
  [repositoryName, snapshotStats.State, snapshotStats.Version]

def defaultSnapshotRepositoryLabels : List String := ["repository"]

def defaultSnapshotRepositoryLabelValues (repositoryName : String) : List String :=
  [repositoryName]

/-- The backward scan of `latest_snapshot_timestamp_seconds`: the source
iterates `i` from `len-1` down to `0` and returns at the first record in
state SUCCESS or PARTIAL; embedded as a front-to-back walk of the reversed
sequence. -/
def latestScan (snaps : List SnapshotStatDataResponse) : Int :=
  match snaps with
  | [] => 0
  | snap :: rest =>
    if snap.State = "SUCCESS" ∨ snap.State = "PARTIAL" then Int.tdiv snap.StartTimeInMillis 1000
    else latestScan rest

/-- The `Snapshots` collector: base URL plus the two descriptor lists
built at construction. (The `http.Client` of the source is the `World`
argument of the fetch functions.) -/
structure Snapshots where
  url : URL
  snapshotMetrics : List snapshotMetric
  repositoryMetrics : List repositoryMetric

/-- `NewSnapshots`: builds the descriptor registry. Field-for-field
translation of the construction in `snapshots.go`. -/
def NewSnapshots (url : URL) : Snapshots :=
  { url := url
    snapshotMetrics := [
      { vtype := ValueType.gauge
        desc := { fqName := buildFQName namespaceStr "snapshot_stats" "snapshot_number_of_indices"
                  help := "Number of indices in the last snapshot"
                  variableLabels := defaultSnapshotLabels }
        value := fun snapshotStats => Int.ofNat snapshotStats.Indices.length
        labels := defaultSnapshotLabelValues },
      { vtype := ValueType.gauge
        desc := { fqName := buildFQName namespaceStr "snapshot_stats" "snapshot_start_time_timestamp"
                  help := "Last snapshot start timestamp"
                  variableLabels := defaultSnapshotLabels }
        value := fun snapshotStats => Int.tdiv snapshotStats.StartTimeInMillis 1000
        labels := defaultSnapshotLabelValues },
      { vtype := ValueType.gauge
        desc := { fqName := buildFQName namespaceStr "snapshot_stats" "snapshot_end_time_timestamp"
                  help := "Last snapshot end timestamp"
                  variableLabels := defaultSnapshotLabels }
        value := fun snapshotStats => Int.tdiv snapshotStats.EndTimeInMillis 1000
        labels := defaultSnapshotLabelValues },
      { vtype := ValueType.gauge
        desc := { fqName := buildFQName namespaceStr "snapshot_stats" "snapshot_number_of_failures"
                  help := "Last snapshot number of failures"
                  variableLabels := defaultSnapshotLabels }
        value := fun snapshotStats => Int.ofNat snapshotStats.Failures.length
        labels := defaultSnapshotLabelValues },
      { vtype := ValueType.gauge
        desc := { fqName := buildFQName namespaceStr "snapshot_stats" "snapshot_total_shards"
                  help := "Last snapshot total shards"
                  variableLabels := defaultSnapshotLabels }
        value := fun snapshotStats => snapshotStats.Shards.Total
        labels := defaultSnapshotLabelValues },
      { vtype := ValueType.gauge
        desc := { fqName := buildFQName namespaceStr "snapshot_stats" "snapshot_failed_shards"
                  help := "Last snapshot failed shards"
                  variableLabels := defaultSnapshotLabels }
        value := fun snapshotStats => snapshotStats.Shards.Failed
        labels := defaultSnapshotLabelValues },
      { vtype := ValueType.gauge
        desc := { fqName := buildFQName namespaceStr "snapshot_stats" "snapshot_successful_shards"
                  help := "Last snapshot successful shards"
                  variableLabels := defaultSnapshotLabels }
        value := fun snapshotStats => snapshotStats.Shards.Successful
        labels := defaultSnapshotLabelValues }
    ]
    repositoryMetrics := [
      { vtype := ValueType.gauge
        desc := { fqName := buildFQName namespaceStr "snapshot_stats" "number_of_snapshots"
                  help := "Number of snapshots in a repository"
                  variableLabels := defaultSnapshotRepositoryLabels }
        value := fun snapshotsStats => Int.ofNat snapshotsStats.Snapshots.length
        labels := defaultSnapshotRepositoryLabelValues },
      { vtype := ValueType.gauge
        desc := { fqName := buildFQName namespaceStr "snapshot_stats" "oldest_snapshot_timestamp"
                  help := "Timestamp of the oldest snapshot"
                  variableLabels := defaultSnapshotRepositoryLabels }
        value := fun snapshotsStats =>
          match snapshotsStats.Snapshots with
          | [] => 0
          | first :: _ => Int.tdiv first.StartTimeInMillis 1000
        labels := defaultSnapshotRepositoryLabelValues },
      { vtype := ValueType.gauge
        desc := { fqName := buildFQName namespaceStr "snapshot_stats" "latest_snapshot_timestamp_seconds"
                  help := "Timestamp of the latest SUCCESS or PARTIAL snapshot"
                  variableLabels := defaultSnapshotRepositoryLabels }
        value := fun snapshotsStats => latestScan snapshotsStats.Snapshots.reverse
        labels := defaultSnapshotRepositoryLabelValues }
    ] }

/-- `Describe`: sends every snapshot-level descriptor, then every
repository-level descriptor, to the channel; embedded as the list sent,
in send order. -/
def Describe (s : Snapshots) : List PromDesc :=
  s.snapshotMetrics.map (fun m => m.desc) ++ s.repositoryMetrics.map (fun m => m.desc)

/-- Decoded JSON payload shapes the collector can receive: the repository
catalog (`SnapshotRepositoriesResponse`, of which only the key set is
used), per-repository stats, or a body that fails to decode. -/
inductive JsonBody where
  | malformed (msg : String)
  | repoCatalog (names : List String)
  | snapshotStats (stats : SnapshotStatsResponse)

/-- Reading the response body: `io.ReadAll` may fail, otherwise yields the
(already parsed) payload. -/
inductive BodyRead where
  | readErr (msg : String)
  | content (body : JsonBody)

/-- One HTTP exchange as seen by `http.Client.Get`: either a transport
failure with no response object, or a response with a status code, a body,
and the outcome of `Body.Close` (`none` = close succeeds). -/
inductive HTTPReply where
  | noResponse (msg : String)
  | response (status : Nat) (body : BodyRead) (closeErr : Option String)

/-- The HTTP world: what each URL returns this cycle. -/
def World : Type := String → HTTPReply

/-- `json.Unmarshal` into a `SnapshotRepositoriesResponse` destination:
succeeds only on a catalog payload (the collector then ranges over its
keys); any other payload is a decode error. -/
def decodeRepoCatalog (body : JsonBody) : Except String (List String) :=
  match body with
  | JsonBody.repoCatalog names => Except.ok names
  | JsonBody.malformed msg => Except.error msg
  | JsonBody.snapshotStats _ => Except.error "json: cannot unmarshal into SnapshotRepositoriesResponse"

/-- `json.Unmarshal` into a `SnapshotStatsResponse` destination. -/
def decodeSnapshotStats (body : JsonBody) : Except String SnapshotStatsResponse :=
  match body with
  | JsonBody.snapshotStats stats => Except.ok stats
  | JsonBody.malformed msg => Except.error msg
  | JsonBody.repoCatalog _ => Except.error "json: cannot unmarshal into SnapshotStatsResponse"

/-- Observable footprint of one `getAndParseURL` call: the URL requested,
whether an HTTP response object was obtained, and whether its body stream
was closed before returning. -/
structure FetchEvent where
  url : String
  gotResponse : Bool
  closedBody : Bool
deriving DecidableEq, Repr

/-- `getAndParseURL`: GET the URL; on transport error return the wrapped
error (no response, nothing to close). Once a response exists, the
deferred `res.Body.Close()` runs on every return path, logging if the
close itself fails; then: non-200 status is an error, a body-read failure
is an error, a decode failure is an error, otherwise the decoded value is
returned. Returns (fetch event, log lines, result) in program order. -/
def getAndParseURL {α : Type} (world : World) (decode : JsonBody → Except String α)
    (u : URL) : FetchEvent × List String × Except String α :=
  let us := URL.toString u
  match world us with
  | HTTPReply.noResponse msg =>
    ({ url := us, gotResponse := false, closedBody := false }, [],
      Except.error ("failed to get from " ++ us ++ ": " ++ msg))
  | HTTPReply.response status body closeErr =>
    let closeLogs : List String :=
      match closeErr with
      | none => []
      | some msg => ["failed to close http.Client, err: " ++ msg]
    let ev : FetchEvent := { url := us, gotResponse := true, closedBody := true }
    if status ≠ 200 then
      (ev, closeLogs, Except.error ("HTTP Request failed with code " ++ toString status))
    else
      match body with
      | BodyRead.readErr msg => (ev, closeLogs, Except.error msg)
      | BodyRead.content jsonBody =>
        match decode jsonBody with
        | Except.error msg => (ev, closeLogs, Except.error msg)
        | Except.ok v => (ev, closeLogs, Except.ok v)

/-- The catalog URL of a collector: `u.Path = path.Join(u.Path, "/_snapshot")`. -/
def catalogURL (base : URL) : URL :=
  { base with path := pathJoin [base.path, "/_snapshot"] }

/-- The per-repository detail URL:
`u.Path = path.Join(u.Path, "/_snapshot", repository, "/_all")`. -/
def detailURL (base : URL) (repository : String) : URL :=
  { base with path := pathJoin [base.path, "/_snapshot", repository, "/_all"] }

/-- The `for repository := range srr` loop of
`fetchAndDecodeSnapshotsStats`: fetch each repository's detail; on error
`continue` (the repository is skipped, nothing is logged by this path);
on success record the stats under the repository name. -/
def detailLoop (world : World) (base : URL) :
    List String → List FetchEvent × List String × List (String × SnapshotStatsResponse)
  | [] => ([], [], [])
  | repository :: rest =>
    let fetched := getAndParseURL world decodeSnapshotStats (detailURL base repository)
    let tail := detailLoop world base rest
    match fetched.2.2 with
    | Except.error _ => (fetched.1 :: tail.1, fetched.2.1 ++ tail.2.1, tail.2.2)
    | Except.ok stats =>
      (fetched.1 :: tail.1, fetched.2.1 ++ tail.2.1, (repository, stats) :: tail.2.2)

/-- `fetchAndDecodeSnapshotsStats`: fetch the repository catalog; on
failure propagate the error (no detail fetches). Otherwise fetch each
repository's detail, skipping failures, and return the name-to-stats
association. Effects (fetch events, log lines) are returned in program
order. -/
def fetchAndDecodeSnapshotsStats (world : World) (s : Snapshots) :
    List FetchEvent × List String × Except String (List (String × SnapshotStatsResponse)) :=
  let catalog := getAndParseURL world decodeRepoCatalog (catalogURL s.url)
  match catalog.2.2 with
  | Except.error e => ([catalog.1], catalog.2.1, Except.error e)
  | Except.ok repositories =>
    let details := detailLoop world s.url repositories
    (catalog.1 :: details.1, catalog.2.1 ++ details.2.1, Except.ok details.2.2)

/-- One emitted sample: `prometheus.MustNewConstMetric(desc, type, value,
labels...)`. -/
structure Sample where
  desc : PromDesc
  vtype : ValueType
  value : Int
  labelValues : List String
deriving DecidableEq, Repr

/-- The per-repository body of `Collect`'s emission loop: one sample per
repository-level descriptor applied to the full stats; then, unless the
snapshot sequence is empty, one sample per snapshot-level descriptor
applied to the sequence's last element. -/
def emitForRepo (s : Snapshots) (repositoryName : String)
    (snapshotStats : SnapshotStatsResponse) : List Sample :=
  let repoSamples := s.repositoryMetrics.map (fun m =>
    { desc := m.desc, vtype := m.vtype, value := m.value snapshotStats
      labelValues := m.labels repositoryName })
  match snapshotStats.Snapshots.getLast? with
  | none => repoSamples
  | some lastSnapshot =>
    repoSamples ++ s.snapshotMetrics.map (fun m =>
      { desc := m.desc, vtype := m.vtype, value := m.value lastSnapshot
        labelValues := m.labels repositoryName lastSnapshot })

/-- `Collect`: run the fetch pipeline; on pipeline failure log
"failed to fetch and decode snapshot stats" and emit nothing; otherwise
emit the samples of every successfully fetched repository. Returns
(fetch events, log lines, samples). -/
def Collect (world : World) (s : Snapshots) :
    List FetchEvent × List String × List Sample :=
  let fetched := fetchAndDecodeSnapshotsStats world s
  match fetched.2.2 with
  | Except.error e =>
    (fetched.1, fetched.2.1 ++ ["failed to fetch and decode snapshot stats, err: " ++ e], [])
  | Except.ok resp =>
    (fetched.1, fetched.2.1, resp.flatMap (fun p => emitForRepo s p.1 p.2))

/-! Concrete fixtures used by witnesses and counterexamples. -/

/-- A concrete base URL for witness scenarios. -/
def baseURL0 : URL := { host := "http://es:9200", path := "" }

/-- A FAILED snapshot starting at 100 ms. -/
def snapFailed100 : SnapshotStatDataResponse :=
  { Indices := ["idx-a"], StartTimeInMillis := 100, EndTimeInMillis := 150
    Failures := [], Shards := { Total := 3, Failed := 1, Successful := 2 }
    State := "FAILED", Version := "7.17.0" }

/-- A SUCCESS snapshot starting at 200 ms. -/
def snapSuccess200 : SnapshotStatDataResponse :=
  { Indices := ["idx-a", "idx-b"], StartTimeInMillis := 200, EndTimeInMillis := 260
    Failures := [], Shards := { Total := 3, Failed := 0, Successful := 3 }
    State := "SUCCESS", Version := "7.17.0" }

/-- A FAILED snapshot starting at 300 ms. -/
def snapFailed300 : SnapshotStatDataResponse :=
  { Indices := ["idx-a"], StartTimeInMillis := 300, EndTimeInMillis := 390
    Failures := ["shard down"], Shards := { Total := 3, Failed := 3, Successful := 0 }
    State := "FAILED", Version := "7.17.0" }

/-- Stats of repository R2 in the witness world. -/
def statsR2 : SnapshotStatsResponse :=
  { Snapshots := [snapFailed100, snapSuccess200, snapFailed300] }

/-- A world where the catalog lists R1 and R2, R1's detail fetch fails
with a 500, R2's succeeds, and every close succeeds. -/
def world0 : World := fun u =>
  if u = "http://es:9200/_snapshot" then
    HTTPReply.response 200 (BodyRead.content (JsonBody.repoCatalog ["R1", "R2"])) none
  else if u = "http://es:9200/_snapshot/R1/_all" then
    HTTPReply.response 500 (BodyRead.content (JsonBody.malformed "boom")) none
  else if u = "http://es:9200/_snapshot/R2/_all" then
    HTTPReply.response 200 (BodyRead.content (JsonBody.snapshotStats statsR2)) none
  else HTTPReply.noResponse "unreachable"

/-- A world where every request fails at the transport level. -/
def worldDown : World := fun _ => HTTPReply.noResponse "connection refused"

/-! Helper lemmas shared by several claims. -/

/-- On every branch of `getAndParseURL`, the fetch event records the
requested URL, and the body is closed exactly when a response object was
obtained (the deferred close is registered only after a successful GET and
then runs on every return path). -/
theorem getAndParseURL_event {α : Type} (world : World)
    (decode : JsonBody → Except String α) (u : URL) :
    (getAndParseURL world decode u).1.url = URL.toString u ∧
    (getAndParseURL world decode u).1.closedBody = (getAndParseURL world decode u).1.gotResponse := by
  cases hw : world (URL.toString u) with
  | noResponse msg => simp [getAndParseURL, hw]
  | response status body closeErr =>
    by_cases hs : status = 200
    · cases body with
      | readErr msg => simp [getAndParseURL, hw, hs]
      | content jsonBody =>
        cases hd : decode jsonBody with
        | error msg => simp [getAndParseURL, hw, hs, hd]
        | ok v => simp [getAndParseURL, hw, hs, hd]
    · simp [getAndParseURL, hw, hs]

/-- The detail loop requests exactly the per-repository URLs, in catalog
order. -/
theorem detailLoop_urls (world : World) (base : URL) (names : List String) :
    (detailLoop world base names).1.map (fun ev => ev.url) =
      names.map (fun n => URL.toString (detailURL base n)) := by
  induction names with
  | nil => rfl
  | cons n rest ih =>
    unfold detailLoop
    cases hr : (getAndParseURL world decodeSnapshotStats (detailURL base n)).2.2 with
    | error e =>
      simp [hr, ih, (getAndParseURL_event world decodeSnapshotStats (detailURL base n)).1]
    | ok stats =>
      simp [hr, ih, (getAndParseURL_event world decodeSnapshotStats (detailURL base n)).1]

/-- Whether a snapshot record counts for `latest_snapshot_timestamp_seconds`. -/
def isQualifying (snap : SnapshotStatDataResponse) : Bool :=
  snap.State = "SUCCESS" || snap.State = "PARTIAL"

/-- The backward-scan loop returns the start time (seconds) of the first
qualifying record it meets, and 0 if none qualifies. -/
theorem latestScan_eq_find (snaps : List SnapshotStatDataResponse) :
    latestScan snaps =
      (match snaps.find? isQualifying with
       | some snap => Int.tdiv snap.StartTimeInMillis 1000
       | none => 0) := by
  induction snaps with
  | nil => rfl
  | cons snap rest ih =>
    by_cases hq : snap.State = "SUCCESS" ∨ snap.State = "PARTIAL"
    · have hb : isQualifying snap = true := by
        simp [isQualifying]
        tauto
      simp [latestScan, hq, List.find?, hb]
    · have hb : isQualifying snap = false := by
        simp [isQualifying]
        tauto
      simp [latestScan, hq, List.find?, hb, ih]

/-- C8: `Describe` advertises the same descriptor set on every call and
never performs network I/O. In the embedding, `Describe` takes no `World`
argument at all — it cannot touch the network — and its output is a pure
function of the construction-time registry, identical across calls and
even across collectors built for different base URLs. -/
theorem describe_idempotent_no_io (u v : URL) :
    Describe (NewSnapshots u) = Describe (NewSnapshots v) := rfl

/-- C10: `Describe` sends exactly 10 descriptors, the 7 snapshot-level
ones in construction order followed by the 3 repository-level ones in
construction order. -/
theorem describe_descriptor_order (u : URL) :
    (Describe (NewSnapshots u)).map (fun d => d.fqName) =
      ["elasticsearch_snapshot_stats_snapshot_number_of_indices",
       "elasticsearch_snapshot_stats_snapshot_start_time_timestamp",
       "elasticsearch_snapshot_stats_snapshot_end_time_timestamp",
       "elasticsearch_snapshot_stats_snapshot_number_of_failures",
       "elasticsearch_snapshot_stats_snapshot_total_shards",
       "elasticsearch_snapshot_stats_snapshot_failed_shards",
       "elasticsearch_snapshot_stats_snapshot_successful_shards",
       "elasticsearch_snapshot_stats_number_of_snapshots",
       "elasticsearch_snapshot_stats_oldest_snapshot_timestamp",
       "elasticsearch_snapshot_stats_latest_snapshot_timestamp_seconds"] ∧
    (Describe (NewSnapshots u)).length = 10 := by
  exact ⟨rfl, rfl⟩

/-- C6: the snapshot-count descriptor value is the length of the snapshot
sequence, and the oldest-snapshot-timestamp descriptor value is the start
time (seconds) of the sequence's first element, or 0 when the sequence is
empty. -/
theorem repository_count_and_oldest_values (u : URL) (resp : SnapshotStatsResponse) :
    ((NewSnapshots u).repositoryMetrics.map (fun m => m.value resp))[0]? =
      some (Int.ofNat resp.Snapshots.length) ∧
    ((NewSnapshots u).repositoryMetrics.map (fun m => m.value resp))[1]? =
      some (match resp.Snapshots with
            | [] => 0
            | first :: _ => Int.tdiv first.StartTimeInMillis 1000) := by
  exact ⟨rfl, rfl⟩

/-- C7: the start- and end-timestamp descriptor values divide the
millisecond timestamps by 1000 as integers (truncation toward zero,
before any conversion to float); in particular a record starting at 100 ms
yields 0 (`snapFailed100` starts at 100 ms). -/
theorem timestamp_seconds_integer_truncation (u : URL) (snap : SnapshotStatDataResponse) :
    ((NewSnapshots u).snapshotMetrics.map (fun m => m.value snap))[1]? =
      some (Int.tdiv snap.StartTimeInMillis 1000) ∧
    ((NewSnapshots u).snapshotMetrics.map (fun m => m.value snap))[2]? =
      some (Int.tdiv snap.EndTimeInMillis 1000) ∧
    ((NewSnapshots u).snapshotMetrics.map (fun m => m.value snapFailed100))[1]? = some 0 := by
  exact ⟨rfl, rfl, rfl⟩

/-- C3: the latest-successful-or-partial descriptor value scans the
sequence from the end backward and returns the start time (seconds) of the
first record in state SUCCESS or PARTIAL; when no record qualifies — in
particular when the sequence is empty or every record is FAILED — it is 0. -/
theorem latest_snapshot_backward_scan (u : URL) (resp : SnapshotStatsResponse) :
    ((NewSnapshots u).repositoryMetrics.map (fun m => m.value resp))[2]? =
      some (match resp.Snapshots.reverse.find? isQualifying with
            | some snap => Int.tdiv snap.StartTimeInMillis 1000
            | none => 0) ∧
    ((∀ snap ∈ resp.Snapshots, snap.State = "FAILED") →
      ((NewSnapshots u).repositoryMetrics.map (fun m => m.value resp))[2]? = some 0) := by
  have hval : ((NewSnapshots u).repositoryMetrics.map (fun m => m.value resp))[2]? =
      some (latestScan resp.Snapshots.reverse) := rfl
  constructor
  · rw [hval, latestScan_eq_find]
  · intro hall
    rw [hval, latestScan_eq_find]
    have hnone : resp.Snapshots.reverse.find? isQualifying = none := by
      rw [List.find?_eq_none]
      intro snap hmem
      have : snap.State = "FAILED" := hall snap (List.mem_reverse.mp hmem)
      simp [isQualifying, this]
    rw [hnone]

/-- Witness for C3 at a concrete all-FAILED repository. -/
theorem latest_snapshot_backward_scan_witness :
    ((NewSnapshots baseURL0).repositoryMetrics.map
        (fun m => m.value { Snapshots := [snapFailed100, snapFailed300] }))[2]? = some 0 :=
  (latest_snapshot_backward_scan baseURL0 { Snapshots := [snapFailed100, snapFailed300] }).2
    (by decide)

/-- C9: whenever `getAndParseURL` obtains an HTTP response, the response
body is closed before the function returns, on every exit path — success,
non-200 status, body-read failure, and JSON decode failure (the world
quantifier ranges over all of them). -/
theorem get_and_parse_url_closes_body (α : Type) (world : World)
    (decode : JsonBody → Except String α) (u : URL)
    (h : (getAndParseURL world decode u).1.gotResponse = true) :
    (getAndParseURL world decode u).1.closedBody = true := by
  rw [(getAndParseURL_event world decode u).2, h]

/-- Witness for C9: in the concrete world, the catalog fetch obtains a
response and its body is closed. -/
theorem get_and_parse_url_closes_body_witness :
    (getAndParseURL world0 decodeRepoCatalog (catalogURL baseURL0)).1.closedBody = true :=
  get_and_parse_url_closes_body (List String) world0 decodeRepoCatalog (catalogURL baseURL0)
    (by decide)

/-- C2: if the repository-catalog fetch fails, `Collect` emits zero
samples, performs exactly one fetch (the catalog URL — no per-repository
detail fetch happens), and reports the failure to the host logger; the
cycle still returns normally rather than stopping the process. -/
theorem collect_catalog_failure_aborts (world : World) (s : Snapshots) (e : String)
    (h : (getAndParseURL world decodeRepoCatalog (catalogURL s.url)).2.2 = Except.error e) :
    (Collect world s).2.2 = [] ∧
    (Collect world s).1.map (fun ev => ev.url) = [URL.toString (catalogURL s.url)] ∧
    ("failed to fetch and decode snapshot stats, err: " ++ e) ∈ (Collect world s).2.1 := by
  have hurl := (getAndParseURL_event world decodeRepoCatalog (catalogURL s.url)).1
  refine ⟨?_, ?_, ?_⟩ <;> simp [Collect, fetchAndDecodeSnapshotsStats, h, hurl]

/-- Witness for C2: with every request failing at the transport level,
`Collect` emits nothing, fetches only the catalog URL, and logs the
failure. -/
theorem collect_catalog_failure_aborts_witness :
    (Collect worldDown (NewSnapshots baseURL0)).2.2 = [] ∧
    (Collect worldDown (NewSnapshots baseURL0)).1.map (fun ev => ev.url) =
      [URL.toString (catalogURL (NewSnapshots baseURL0).url)] ∧
    ("failed to fetch and decode snapshot stats, err: " ++
        "failed to get from http://es:9200/_snapshot: connection refused") ∈
      (Collect worldDown (NewSnapshots baseURL0)).2.1 :=
  collect_catalog_failure_aborts worldDown (NewSnapshots baseURL0)
    "failed to get from http://es:9200/_snapshot: connection refused" rfl

/-- C5: for a well-formed catalog response with N repository names,
exactly N detail fetches are attempted, each to
`{base}/_snapshot/{name}/_all`, and the catalog fetch (to
`{base}/_snapshot`) strictly precedes all of them: the requested URLs are
precisely the catalog URL followed by the N detail URLs, so the fetch
count is 1 + N. -/
theorem detail_fetch_urls_and_count (world : World) (s : Snapshots) (names : List String)
    (h : (getAndParseURL world decodeRepoCatalog (catalogURL s.url)).2.2 = Except.ok names) :
    (fetchAndDecodeSnapshotsStats world s).1.map (fun ev => ev.url) =
      URL.toString (catalogURL s.url) :: names.map (fun n => URL.toString (detailURL s.url n)) ∧
    (fetchAndDecodeSnapshotsStats world s).1.length = 1 + names.length := by
  have hurl := (getAndParseURL_event world decodeRepoCatalog (catalogURL s.url)).1
  have hmap := detailLoop_urls world s.url names
  have hlen : (detailLoop world s.url names).1.length = names.length := by
    have := congrArg List.length hmap
    simpa using this
  constructor
  · simp [fetchAndDecodeSnapshotsStats, h, hurl, hmap]
  · simp [fetchAndDecodeSnapshotsStats, h, hlen]
    omega

/-- Witness for C5: in the concrete world the catalog lists R1 and R2 and
exactly the three expected URLs are requested, catalog first. -/
theorem detail_fetch_urls_and_count_witness :
    (fetchAndDecodeSnapshotsStats world0 (NewSnapshots baseURL0)).1.map (fun ev => ev.url) =
      URL.toString (catalogURL (NewSnapshots baseURL0).url) ::
        (["R1", "R2"].map (fun n => URL.toString (detailURL (NewSnapshots baseURL0).url n))) ∧
    (fetchAndDecodeSnapshotsStats world0 (NewSnapshots baseURL0)).1.length = 1 + ["R1", "R2"].length :=
  detail_fetch_urls_and_count world0 (NewSnapshots baseURL0) ["R1", "R2"] rfl

/-- C4: for every repository whose detail fetch succeeded, `Collect` emits
exactly one sample per repository-level descriptor applied to its full
stats; iff its snapshot sequence is non-empty it additionally emits
exactly one sample per snapshot-level descriptor, all computed from the
sequence's last element (whatever its state — the record is picked purely
positionally). -/
theorem collect_emits_per_descriptor_samples (world : World) (s : Snapshots)
    (resp : List (String × SnapshotStatsResponse))
    (h : (fetchAndDecodeSnapshotsStats world s).2.2 = Except.ok resp) :
    (Collect world s).2.2 = resp.flatMap (fun p => emitForRepo s p.1 p.2) ∧
    (∀ name stats, stats.Snapshots = [] →
      emitForRepo s name stats = s.repositoryMetrics.map (fun m =>
        { desc := m.desc, vtype := m.vtype, value := m.value stats
          labelValues := m.labels name })) ∧
    (∀ name stats lastSnapshot, stats.Snapshots.getLast? = some lastSnapshot →
      emitForRepo s name stats =
        s.repositoryMetrics.map (fun m =>
          { desc := m.desc, vtype := m.vtype, value := m.value stats
            labelValues := m.labels name }) ++
        s.snapshotMetrics.map (fun m =>
          { desc := m.desc, vtype := m.vtype, value := m.value lastSnapshot
            labelValues := m.labels name lastSnapshot })) ∧
    (∀ name stats, (emitForRepo s name stats).length =
      s.repositoryMetrics.length +
        (if stats.Snapshots = [] then 0 else s.snapshotMetrics.length)) := by
  refine ⟨by simp [Collect, h], ?_, ?_, ?_⟩
  · intro name stats hempty
    simp [emitForRepo, hempty]
  · intro name stats lastSnapshot hlast
    simp [emitForRepo, hlast]
  · intro name stats
    by_cases hempty : stats.Snapshots = []
    · simp [emitForRepo, hempty]
    · cases hlast : stats.Snapshots.getLast? with
      | none =>
        exact absurd (List.getLast?_eq_none_iff.mp hlast) hempty
      | some lastSnapshot =>
        simp [emitForRepo, hlast, hempty]

/-- Witness for C4: the concrete cycle's samples are exactly the flattened
per-repository emissions, and R2 (a 3-snapshot repository) gets its 3
repository-level plus 7 snapshot-level samples. -/
theorem collect_emits_per_descriptor_samples_witness :
    (Collect world0 (NewSnapshots baseURL0)).2.2 =
      [("R2", statsR2)].flatMap (fun p => emitForRepo (NewSnapshots baseURL0) p.1 p.2) ∧
    (emitForRepo (NewSnapshots baseURL0) "R2" statsR2).length =
      (NewSnapshots baseURL0).repositoryMetrics.length +
        (if statsR2.Snapshots = [] then 0 else (NewSnapshots baseURL0).snapshotMetrics.length) :=
  ⟨(collect_emits_per_descriptor_samples world0 (NewSnapshots baseURL0) [("R2", statsR2)] rfl).1,
   (collect_emits_per_descriptor_samples world0 (NewSnapshots baseURL0) [("R2", statsR2)] rfl).2.2.2
     "R2" statsR2⟩

/-- C1 counterexample: in a concrete cycle where R1's detail fetch fails
(500) and R2's succeeds, the output does contain samples for R2 only
(every sample's repository label is "R2") and the cycle is not aborted —
but the log output is empty: no diagnostic referencing "R1" is ever
reported, contradicting the claim. -/
theorem collect_failed_repo_diagnostic_counterexample :
    (getAndParseURL world0 decodeSnapshotStats (detailURL baseURL0 "R1")).2.2 =
      Except.error "HTTP Request failed with code 500" ∧
    (getAndParseURL world0 decodeSnapshotStats (detailURL baseURL0 "R2")).2.2 =
      Except.ok statsR2 ∧
    (Collect world0 (NewSnapshots baseURL0)).2.2.map (fun smp => smp.labelValues[0]?) =
      List.replicate 10 (some "R2") ∧
    (Collect world0 (NewSnapshots baseURL0)).2.1 = [] :=
  ⟨rfl, rfl, rfl, rfl⟩

/-- C1 (amended): when the catalog lists R1 and R2, R1's detail fetch
fails, R2's succeeds and no body-close failure occurs, `Collect` emits
exactly R2's samples (R1 contributes none, the cycle is not aborted), and
no diagnostic at all — in particular none referencing "R1" — reaches the
logging collaborator: the failed repository is skipped silently. -/
theorem collect_failed_repo_silently_skipped (world : World) (u : URL) (e : String)
    (stats : SnapshotStatsResponse)
    (hcat : (getAndParseURL world decodeRepoCatalog (catalogURL u)).2.2 =
      Except.ok ["R1", "R2"])
    (hcatlog : (getAndParseURL world decodeRepoCatalog (catalogURL u)).2.1 = [])
    (h1 : (getAndParseURL world decodeSnapshotStats (detailURL u "R1")).2.2 = Except.error e)
    (h1log : (getAndParseURL world decodeSnapshotStats (detailURL u "R1")).2.1 = [])
    (h2 : (getAndParseURL world decodeSnapshotStats (detailURL u "R2")).2.2 = Except.ok stats)
    (h2log : (getAndParseURL world decodeSnapshotStats (detailURL u "R2")).2.1 = []) :
    (Collect world (NewSnapshots u)).2.2 = emitForRepo (NewSnapshots u) "R2" stats ∧
    (Collect world (NewSnapshots u)).2.1 = [] := by
  have hsu : (NewSnapshots u).url = u := rfl
  have hdl : (detailLoop world u ["R1", "R2"]).2 = ([], [("R2", stats)]) := by
    simp [detailLoop, h1, h1log, h2, h2log]
  constructor <;>
    simp [Collect, fetchAndDecodeSnapshotsStats, hsu, hcat, hcatlog, hdl]

/-- Witness for the amended C1 in the concrete world. -/
theorem collect_failed_repo_silently_skipped_witness :
    (Collect world0 (NewSnapshots baseURL0)).2.2 =
      emitForRepo (NewSnapshots baseURL0) "R2" statsR2 ∧
    (Collect world0 (NewSnapshots baseURL0)).2.1 = [] :=
  collect_failed_repo_silently_skipped world0 baseURL0
    "HTTP Request failed with code 500" statsR2 rfl rfl rfl rfl rfl rfl
